import Mathlib

/-!
Verification of the `csv_manager` library (src/csv_manager/manager.py).

The Python code manages a pandas DataFrame as an in-memory table.  We embed
the DataFrame state shallowly: a table is an ordered column schema together
with an ordered list of rows, each row a list of cells aligned to the schema.
Cell values are the tagged union of string, integer and null; pandas NaN and
`None` fill values are both modelled by `Cell.null`.

Caller-supplied predicates and update functions receive a row as a lookup
function from column name to cell (mirroring named access on a pandas
Series produced by `DataFrame.apply(..., axis=1)`).

Methods that print diagnostics are modelled as functions returning a result
record carrying the new state, the diagnostic data that would be printed, and
(where a claim is about it) the value returned to the Python caller.
-/

namespace CsvMgr

/-- A cell value: pandas cells restricted to the tagged union of String,
Number, Boolean and Null described by the data model.  `null` stands for
NaN / None.  Floating-point numbers are outside the cell model: the one
dtype effect that touches integer cells — an integer column containing a
null is materialized by pandas at floating dtype with the same numeric
values — is identified with the integers themselves, per the
null-normalization allowance of the round-trip property. -/
inductive Cell where
  | str (s : String)
  | num (n : Int)
  | bool (b : Bool)
  | null
  deriving DecidableEq, Repr

/-- A row, aligned positionally to the column schema of its table. -/
abbrev Row := List Cell

/-- The row view handed to caller-supplied predicates and update functions:
lookup by column name (as named access on a pandas Series). Looking up a
column outside the schema yields `null` (such lookups would raise in pandas;
no predicate used in this development performs one). -/
abbrev RowView := String → Cell

/-- A caller-supplied row predicate (`condition_func` in the source). -/
abbrev Pred := RowView → Bool

/-- The in-memory table: `self.data`, a pandas DataFrame. -/
structure DataFrame where
  cols : List String
  rows : List Row
  deriving DecidableEq, Repr

/-- `pd.DataFrame()`: the empty frame (no columns, no rows). -/
def emptyDF : DataFrame := ⟨[], []⟩

/-- `DataFrame.empty` in pandas: true when either axis has length zero. -/
def DataFrame.isEmptyDF (df : DataFrame) : Bool :=
  df.rows.isEmpty || df.cols.isEmpty

/-- Well-formedness: every row has exactly one cell per schema column. -/
def DataFrame.WF (df : DataFrame) : Prop :=
  ∀ r ∈ df.rows, r.length = df.cols.length

instance (df : DataFrame) : Decidable df.WF :=
  inferInstanceAs (Decidable (∀ r ∈ df.rows, r.length = df.cols.length))

/-- Build the row view for a row aligned to `cols`. -/
def rowView (cols : List String) (r : Row) : RowView :=
  fun c => ((cols.zip r).lookup c).getD Cell.null

/-- `self.data.copy()` (manager.py line 63): in the value model a copy is the
same value; the source takes it so that filtering and selection never touch
the original frame. -/
def DataFrame.copy (df : DataFrame) : DataFrame := df

/-- manager.py `add_row` (lines 79-95):
`new_row_df = pd.DataFrame([row_data])` is reindexed to the *existing*
columns with `fill_value=None`, so a key of `row_data` outside the current
schema is dropped and a schema column missing from `row_data` becomes null;
the reindexed single row is then concatenated below the existing rows with
`ignore_index=True`. -/
def add_row (df : DataFrame) (row_data : List (String × Cell)) : DataFrame :=
  let new_row : Row := df.cols.map (fun c => (row_data.lookup c).getD Cell.null)
  ⟨df.cols, df.rows ++ [new_row]⟩

/-- A value of the `updates` mapping in `update_data`: either a static cell
value or a callable computing the new cell from the row. -/
inductive UpdateVal where
  | static (c : Cell)
  | func (f : RowView → Cell)

/-- Write value `v` into the cell of column `col` of row `r` (row aligned to
`cols`); used only when `col` is in `cols`. -/
def setCell (cols : List String) (r : Row) (col : String) (v : Cell) : Row :=
  match cols.findIdx? (· = col) with
  | some i => r.set i v
  | none => r

/-- One iteration of the `for col, value in updates.items()` loop body for a
column present in the schema (manager.py lines 128-134): a static value is
assigned to the cells of the selected rows; a callable is applied to each
selected row *as it currently stands* and the result assigned to the cell
of that row.  `mask` records which row positions were selected. -/
def applyUpdateCol (cols : List String) (rows : List Row) (mask : List Bool)
    (col : String) (v : UpdateVal) : List Row :=
  (rows.zip mask).map fun rm =>
    if rm.2 then
      match v with
      | .static c => setCell cols rm.1 col c
      | .func f => setCell cols rm.1 col (f (rowView cols rm.1))
    else rm.1

/-- The `for col, value in updates.items()` loop (manager.py lines 127-136):
columns are processed sequentially in mapping order against the evolving
rows; a column not in the schema is skipped and its name recorded for the
printed warning. -/
def applyUpdates (cols : List String) (rows : List Row) (mask : List Bool)
    (updates : List (String × UpdateVal)) : List Row × List String :=
  updates.foldl
    (fun acc cu =>
      if cu.1 ∈ cols then (applyUpdateCol cols acc.1 mask cu.1 cu.2, acc.2)
      else (acc.1, acc.2 ++ [cu.1]))
    (rows, [])

/-- Result of `update_data`: the new frame, the skipped (unknown) column
names printed as warnings, and the matched-row count printed at the end
(`none` on either early return). -/
structure UpdateResult where
  state : DataFrame
  skippedCols : List String
  printedCount : Option Nat
  deriving Repr

/-- manager.py `update_data` (lines 98-137): early return on an empty frame;
the selection mask is computed once from the pre-update rows; if no row
matches, early return; otherwise each updated column is applied in mapping
order against the current rows, and the matched count is printed. -/
def update_data (df : DataFrame) (cond : Pred)
    (updates : List (String × UpdateVal)) : UpdateResult :=
  if df.isEmptyDF then ⟨df, [], none⟩
  else
    let mask := df.rows.map (fun r => cond (rowView df.cols r))
    if mask.all (fun b => !b) then ⟨df, [], none⟩
    else
      let rw := applyUpdates df.cols df.rows mask updates
      ⟨⟨df.cols, rw.1⟩, rw.2, some (mask.count true)⟩

/-- The update semantics the specification describes, written from the
words of the spec for comparison with `update_data` above: every update
function is evaluated on the *pre-update* snapshot of the selected row, so
no update of one column can observe the update of another column from the
same call. -/
def update_data_specSnapshot (df : DataFrame) (cond : Pred)
    (updates : List (String × UpdateVal)) : DataFrame :=
  if df.isEmptyDF then df
  else
    let mask := df.rows.map (fun r => cond (rowView df.cols r))
    let rows2 := (df.rows.zip mask).map fun rm =>
      if rm.2 then
        updates.foldl
          (fun r cu =>
            if cu.1 ∈ df.cols then
              match cu.2 with
              | .static c => setCell df.cols r cu.1 c
              | .func f => setCell df.cols r cu.1 (f (rowView df.cols rm.1))
            else r)
          rm.1
      else rm.1
    ⟨df.cols, rows2⟩

/-- Result of `delete_rows`: the new frame, the deleted count that is
printed (`none` when the empty-frame early return fires), and the value
returned to the Python caller — the function body has no `return` statement
with a value, so the caller always receives `None`. -/
structure DeleteResult where
  state : DataFrame
  printedDeleted : Option Nat
  ret : Option Nat
  deriving Repr

/-- manager.py `delete_rows` (lines 139-157): early return on an empty
frame; otherwise the rows for which the predicate is false are kept (in
order, `reset_index(drop=True)` renumbering them contiguously) and the
count of removed rows is printed.  The function returns `None`. -/
def delete_rows (df : DataFrame) (cond : Pred) : DeleteResult :=
  if df.isEmptyDF then ⟨df, none, none⟩
  else
    let kept := df.rows.filter (fun r => !(cond (rowView df.cols r)))
    ⟨⟨df.cols, kept⟩, some (df.rows.length - kept.length), none⟩

/-- Select the named columns, in the order given, from a frame (the
`queried_data[existing_columns]` step of `query`). -/
def selectCols (df : DataFrame) (cs : List String) : DataFrame :=
  ⟨cs, df.rows.map (fun r => cs.map (fun c => rowView df.cols r c))⟩

/-- manager.py `query` (lines 43-77): early return of a fresh
`pd.DataFrame()` when the frame is empty; otherwise work on a copy, filter
by the predicate when one is given, then (when a non-empty column list is
given — an empty list is falsy in Python) keep only the listed columns that
exist, in the listed order. -/
def query (df : DataFrame) (cond : Option Pred) (columns : Option (List String)) :
    DataFrame :=
  if df.isEmptyDF then emptyDF
  else
    let q1 := df.copy
    let q2 := match cond with
      | none => q1
      | some f => ⟨q1.cols, q1.rows.filter (fun r => f (rowView q1.cols r))⟩
    match columns with
    | none => q2
    | some cs =>
        if cs.isEmpty then q2
        else selectCols q2 (cs.filter (fun c => c ∈ q2.cols))

/-! ### Serialization: the decimal text of integers

`DataFrame.to_csv` / `pd.read_csv` render and re-parse integer cells as
decimal text.  We model that codec with a fuel-based printer (fuel `n + 1`
always suffices since `n < 10 ^ (n + 1)`) and a structural parser, both
kernel-reducible. -/

/-- Decimal digits of `n`, most significant first; `fuel` bounds recursion
depth. -/
def natToCharsAux : Nat → Nat → List Char
  | 0, _ => []
  | fuel + 1, n =>
    if n < 10 then [Nat.digitChar n]
    else natToCharsAux fuel (n / 10) ++ [Nat.digitChar (n % 10)]

/-- Decimal representation of a natural number. -/
def natToChars (n : Nat) : List Char := natToCharsAux (n + 1) n

/-- Decimal representation of an integer (leading minus sign when
negative). -/
def intToChars (n : Int) : List Char :=
  if n < 0 then '-' :: natToChars n.natAbs else natToChars n.natAbs

/-- Parse one decimal digit. -/
def charToDigit? (c : Char) : Option Nat :=
  if c.isDigit then some (c.toNat - 48) else none

/-- Parse a run of decimal digits, accumulating: fails on any non-digit. -/
def parseNatAux : List Char → Nat → Option Nat
  | [], acc => some acc
  | c :: cs, acc =>
    match charToDigit? c with
    | some d => parseNatAux cs (10 * acc + d)
    | none => none

/-- Parse a non-empty run of decimal digits as a natural number. -/
def parseNatChars : List Char → Option Nat
  | [] => none
  | cs => parseNatAux cs 0

/-- Parse an optionally minus-signed decimal integer. -/
def parseIntChars : List Char → Option Int
  | [] => none
  | c :: cs =>
    if c = '-' then (parseNatChars cs).map (fun m => -(m : Int))
    else (parseNatChars (c :: cs)).map (fun m => (m : Int))

/-! ### The CSV file model

The file is modelled in tokenized form: a list of records, each a list of
field strings, as produced by the delimiter/quoting layer of the pandas
serializer (that layer makes field text round-trip exactly and is outside
code of this repository, so it is not re-modelled character by character). -/

/-- How `to_csv` renders one cell as field text: NaN as the empty field,
integers as decimal text, booleans as `True` / `False`, strings verbatim. -/
def cellToField : Cell → String
  | .str s => s
  | .num n => String.mk (intToChars n)
  | .bool b => if b then "True" else "False"
  | .null => ""

/-- The default NA sentinel strings of the pandas parser (its `na_values`):
a field equal to any of these is read back as NaN, whatever the column. -/
def naTokens : List String :=
  ["", "#N/A", "#N/A N/A", "#NA", "-1.#IND", "-1.#QNAN", "-NaN", "-nan",
   "1.#IND", "1.#QNAN", "<NA>", "N/A", "NA", "NULL", "NaN", "None",
   "n/a", "nan", "null"]

/-- Is this field an NA sentinel? -/
def isNA (s : String) : Bool := decide (s ∈ naTokens)

/-- The spellings the parser reads as boolean true. -/
def trueTokens : List String := ["True", "TRUE", "true"]

/-- The spellings the parser reads as boolean false. -/
def falseTokens : List String := ["False", "FALSE", "false"]

/-- Is this field boolean text? -/
def isBoolField (s : String) : Bool :=
  decide (s ∈ trueTokens ∨ s ∈ falseTokens)

/-- Is this field integer text (accepted by the decimal parser)? -/
def isIntField (s : String) : Bool := (parseIntChars s.data).isSome

/-- Characters of numeric text.  A string drawn entirely from this
alphabet (or an infinity spelling) may be converted to a number — integer
or floating — by the pandas parser; `couldBeNumeric` over-approximates
that conversion.  Floating-point values themselves are outside the cell
model, so the round-trip hypotheses simply exclude such strings. -/
def numericAlphabet : List Char :=
  ['+', '-', '.', 'e', 'E', ' ', '\t',
   '0', '1', '2', '3', '4', '5', '6', '7', '8', '9']

/-- Infinity spellings the numeric conversion recognizes. -/
def infTokens : List String :=
  ["inf", "Inf", "INF", "infinity", "Infinity", "INFINITY",
   "-inf", "-Inf", "-INF", "-infinity", "-Infinity", "-INFINITY",
   "+inf", "+Inf", "+INF", "+infinity", "+Infinity", "+INFINITY"]

/-- Over-approximation of the fields the pandas parser might convert to a
number rather than keep as a string. -/
def couldBeNumeric (s : String) : Bool :=
  decide ((∀ c ∈ s.data, c ∈ numericAlphabet) ∨ s ∈ infTokens)

/-- The dtype the parser infers for one column: integer, boolean, or
object (strings).  Columns pandas would convert to floating point (non-
integer numeric text) are outside the cell model and land in `strCol`
here; the round-trip hypotheses exclude their fields. -/
inductive ColType where
  | intCol
  | boolCol
  | strCol
  deriving DecidableEq, Repr

/-- Column-wise type inference, as pandas performs it per column over the
raw fields: if every non-NA field is integer text the column is integer;
otherwise if every non-NA field is boolean text the column is boolean;
otherwise every value stays a string — in particular a column mixing
number text and word text keeps the number text as strings. -/
def inferColType (fs : List String) : ColType :=
  let present := fs.filter (fun s => !isNA s)
  if present.all isIntField then .intCol
  else if present.all isBoolField then .boolCol
  else .strCol

/-- Parse one field at a column type: NA sentinels give NaN in every
column; other fields parse according to the inferred column dtype. -/
def parseFieldTyped (t : ColType) (s : String) : Cell :=
  if isNA s then Cell.null
  else
    match t with
    | .intCol =>
      match parseIntChars s.data with
      | some n => Cell.num n
      | none => Cell.str s
    | .boolCol => Cell.bool (decide (s ∈ trueTokens))
    | .strCol => Cell.str s

/-- `read_csv` names a header field that is empty text `Unnamed: i` after
its position `i`. -/
def unnamedFixFrom : Nat → List String → List String
  | _, [] => []
  | i, h :: t =>
    (if h = "" then "Unnamed: " ++ String.mk (natToChars i) else h)
      :: unnamedFixFrom (i + 1) t

/-- Apply the `Unnamed: i` renaming to a header record. -/
def unnamedFix (header : List String) : List String := unnamedFixFrom 0 header

/-- pandas renames later duplicates among the header names, `a, a, a`
becoming `a, a.1, a.2` (mangling; the model does not re-mangle when a
mangled name collides with yet another header name).  `seen` accumulates
the names already passed. -/
def mangleDupFrom : List String → List String → List String
  | _, [] => []
  | seen, h :: t =>
    (if seen.count h = 0 then h
     else h ++ "." ++ String.mk (natToChars (seen.count h)))
      :: mangleDupFrom (seen ++ [h]) t

/-- Apply duplicate-name mangling to a header record. -/
def mangleDup (header : List String) : List String := mangleDupFrom [] header

/-- Data records of `to_csv` when the index is written: each record is the
row label (the default integer index `0, 1, ...`) followed by the cells. -/
def indexedBody : Nat → List Row → List (List String)
  | _, [] => []
  | i, r :: rs =>
    (String.mk (natToChars i) :: r.map cellToField) :: indexedBody (i + 1) rs

/-- `DataFrame.to_csv` (called at manager.py line 172): the header record is
the column names, preceded by an empty field for the unnamed index when
`index` is true (the pandas default); each data record renders one row. -/
def to_csv (df : DataFrame) (index : Bool) : List (List String) :=
  if index then ("" :: df.cols) :: indexedBody 0 df.rows
  else df.cols :: df.rows.map (fun r => r.map cellToField)

/-- Failures `pd.read_csv` can raise on an existing file. -/
inductive ReadErr where
  /-- `pandas.errors.EmptyDataError`: no header record to parse. -/
  | emptyDataError
  /-- `pandas.errors.ParserError`: a data record has more fields than the
  header. -/
  | tokenizeError
  /-- `ValueError`: the requested index column is not in the header. -/
  | badIndexCol
  deriving DecidableEq, Repr

/-- `pd.read_csv` (called at manager.py lines 32-34) on tokenized content:
the first record is the header (empty names replaced by `Unnamed: i`, then
duplicate names mangled); short data records are padded with NA fields; a
dtype is inferred per column and every field parsed at the dtype of its
column; when `index_col` names a header column, that column is moved out
of the data columns to serve as the index.  One simplification: when data
records are longer than the header, pandas either infers an implied index
column (first data record exactly one field longer) or raises
`ParserError`; the model reports every longer record as `tokenizeError`.
The serializer `to_csv` never produces such records, so the round-trip
development never meets this case, and which contents error does not
matter to the load-absorption behavior. -/
def read_csv (content : List (List String)) (index_col : Option String) :
    Except ReadErr DataFrame :=
  match content with
  | [] => .error .emptyDataError
  | header :: body =>
    if header.isEmpty then .error .emptyDataError
    else
      let cols := mangleDup (unnamedFix header)
      if body.any (fun r => cols.length < r.length) then .error .tokenizeError
      else
        let padded := body.map (fun r => r ++ List.replicate (cols.length - r.length) "")
        let colTypes := (List.range cols.length).map
          (fun j => inferColType (padded.map (fun r => r.getD j "")))
        let rows := padded.map
          (fun r => (r.zip colTypes).map (fun ft => parseFieldTyped ft.2 ft.1))
        match index_col with
        | none => .ok ⟨cols, rows⟩
        | some c =>
          match cols.findIdx? (· = c) with
          | none => .error .badIndexCol
          | some i => .ok ⟨cols.eraseIdx i, rows.map (fun r => r.eraseIdx i)⟩

/-- The three warning prints of `_load_csv`. -/
inductive LoadWarning where
  /-- file does not exist (manager.py line 27) -/
  | fileNotFound
  /-- `EmptyDataError` caught (line 37) -/
  | emptyFile
  /-- any other exception caught (line 40) -/
  | loadError (e : ReadErr)
  deriving DecidableEq, Repr

/-- manager.py `_load_csv` (lines 24-41): a missing file yields an empty
frame with a warning; `read_csv` failures are caught — `EmptyDataError` and
every other exception both degrade to an empty frame with a warning; no
failure propagates to the caller.  `source` is `none` when the file does
not exist, otherwise the tokenized file content. -/
def load_csv (source : Option (List (List String))) (index_col : Option String) :
    DataFrame × Option LoadWarning :=
  match source with
  | none => (emptyDF, some .fileNotFound)
  | some content =>
    match read_csv content index_col with
    | .ok df => (df, none)
    | .error .emptyDataError => (emptyDF, some .emptyFile)
    | .error e => (emptyDF, some (.loadError e))

/-- The manager object: the stored file path and the in-memory frame. -/
structure CSVManager where
  filepath : String
  data : DataFrame
  deriving DecidableEq, Repr

/-- `CSVManager.__init__` (manager.py lines 10-22): store the path and load
the frame from the file content at that path. -/
def initManager (filepath : String) (source : Option (List (List String)))
    (index_col : Option String) : CSVManager :=
  ⟨filepath, (load_csv source index_col).1⟩

/-- `CSVManager.query` as a method: the result frame together with the
manager state after the call (the method body never assigns `self.data`). -/
def CSVManager.runQuery (m : CSVManager) (cond : Option Pred)
    (columns : Option (List String)) : DataFrame × CSVManager :=
  (query m.data cond columns, m)

/-- What `save_changes` prints. -/
inductive SavePrint where
  /-- success message (manager.py line 173) -/
  | savedOk (path : String)
  /-- the caught exception printed (line 175) -/
  | saveError (path : String) (e : String)
  deriving DecidableEq, Repr

/-- What one attempted file write does, chosen by the environment: either
the full content reaches the path, or the write raises an exception after
leaving some content at the path — `DataFrame.to_csv` writes through an
ordinary file handle with no atomicity mechanism, so a failing write may
leave any partial file (or an empty or truncated one) behind; `left` is
whatever the environment says remained. -/
inductive WriteOutcome where
  | ok
  | raised (e : String) (left : List (List String))
  deriving DecidableEq, Repr

/-- Observable outcome of one `save_changes` call: the resolved destination
path, the content at the destination after the call (the full
serialization on success; on failure whatever the interrupted write left,
chosen by the environment), the message printed, and the value returned to
the Python caller — the function has no `return` statement, so the caller
always receives `None`. -/
structure SaveResult where
  path : String
  destContents : List (List String)
  printed : SavePrint
  ret : Option String
  deriving DecidableEq, Repr

/-- manager.py `save_changes` (lines 160-175): the destination defaults to
the original `self.filepath` when `output_filepath` is `None` (or the empty
string — Python truthiness); `self.data.to_csv(path, **kwargs)` runs inside
`try`, and any exception is caught and printed.  The write environment
`env` decides, from the path and the serialized content handed to it, how
the write ends: full success, or an exception with arbitrary content left
at the destination.  The `index` keyword (default true in pandas) is the
`**kwargs` option the claims concern.  The method never touches
`self.data`, so the manager state is returned unchanged. -/
def save_changes (m : CSVManager) (output_filepath : Option String)
    (index : Bool) (env : String → List (List String) → WriteOutcome) :
    SaveResult × CSVManager :=
  let path := match output_filepath with
    | some s => if s = "" then m.filepath else s
    | none => m.filepath
  let payload := to_csv m.data index
  match env path payload with
  | .ok => (⟨path, payload, .savedOk path, none⟩, m)
  | .raised e left => (⟨path, left, .saveError path e, none⟩, m)

/-- The rows component of the update loop on its own: fold the columns of
`updates` over the rows, skipping columns outside the schema.  Restating
the loop without the warning accumulator lets composition of two update
passes over the same selection be expressed. -/
def applyUpdatesRows (cols : List String) (rows : List Row) (mask : List Bool)
    (updates : List (String × UpdateVal)) : List Row :=
  updates.foldl
    (fun acc cu => if cu.1 ∈ cols then applyUpdateCol cols acc mask cu.1 cu.2 else acc)
    rows

/-- A cell whose field text the parser reads back as the same cell: string
cells must not be empty, not an NA sentinel, not boolean text, not integer
text, and not numeric-looking at all — pandas reads those back as null,
bool, int or float respectively.  Number, boolean and null cells are safe
at cell level; their columns must additionally be type-homogeneous
(`homogeneousCol`), since the parser infers one dtype per column. -/
def safeCell : Cell → Prop
  | .str s => s ≠ "" ∧ isNA s = false ∧ isBoolField s = false ∧
      parseIntChars s.data = none ∧ couldBeNumeric s = false
  | .num _ => True
  | .bool _ => True
  | .null => True

instance : DecidablePred safeCell := fun c =>
  match c with
  | .str s => inferInstanceAs (Decidable (s ≠ "" ∧ isNA s = false ∧
      isBoolField s = false ∧ parseIntChars s.data = none ∧ couldBeNumeric s = false))
  | .num _ => inferInstanceAs (Decidable True)
  | .bool _ => inferInstanceAs (Decidable True)
  | .null => inferInstanceAs (Decidable True)

/-- The cell is a number or missing. -/
def isNumOrNull : Cell → Bool
  | .num _ => true
  | .null => true
  | _ => false

/-- The cell is a boolean or missing. -/
def isBoolOrNull : Cell → Bool
  | .bool _ => true
  | .null => true
  | _ => false

/-- The cell is a string or missing. -/
def isStrOrNull : Cell → Bool
  | .str _ => true
  | .null => true
  | _ => false

/-- The cells of one column are type-homogeneous modulo nulls.  pandas
infers a single dtype per column, so only homogeneous columns round-trip
exactly: in a column mixing strings and integers, the integers come back
as strings. -/
def homogeneousCol (cells : List Cell) : Bool :=
  cells.all isNumOrNull || cells.all isBoolOrNull || cells.all isStrOrNull

/-- The cells of column `j` of a frame, top to bottom. -/
def colCells (df : DataFrame) (j : Nat) : List Cell :=
  df.rows.map (fun r => r.getD j Cell.null)

/-! ## Lemmas: the decimal codec round-trips -/

lemma charToDigit?_digitChar : ∀ d < 10, charToDigit? (Nat.digitChar d) = some d := by
  decide

lemma digitChar_ne_dash : ∀ d < 10, Nat.digitChar d ≠ '-' := by decide

lemma natToCharsAux_ne_nil (fuel n : Nat) (h : 0 < fuel) :
    natToCharsAux fuel n ≠ [] := by
  match fuel with
  | f + 1 =>
    rw [natToCharsAux]
    split
    · simp
    · simp

lemma natToChars_ne_nil (n : Nat) : natToChars n ≠ [] :=
  natToCharsAux_ne_nil _ _ (Nat.succ_pos n)

lemma mem_natToCharsAux :
    ∀ fuel n c, c ∈ natToCharsAux fuel n → ∃ d, d < 10 ∧ c = Nat.digitChar d := by
  intro fuel
  induction fuel with
  | zero => intro n c hc; simp [natToCharsAux] at hc
  | succ f ih =>
    intro n c hc
    rw [natToCharsAux] at hc
    split at hc
    · next h10 =>
      simp at hc
      exact ⟨n, h10, hc⟩
    · rw [List.mem_append] at hc
      rcases hc with hc | hc
      · exact ih _ _ hc
      · simp at hc
        exact ⟨n % 10, Nat.mod_lt n (by norm_num), hc⟩

lemma parseNatAux_append_toChars :
    ∀ fuel n, n < 10 ^ fuel → ∀ acc rest,
      parseNatAux (natToCharsAux fuel n ++ rest) acc
        = parseNatAux rest (acc * 10 ^ (natToCharsAux fuel n).length + n) := by
  intro fuel
  induction fuel with
  | zero =>
    intro n hn acc rest
    interval_cases n
    simp [natToCharsAux, parseNatAux]
  | succ f ih =>
    intro n hn acc rest
    rw [natToCharsAux]
    by_cases h10 : n < 10
    · rw [if_pos h10]
      simp only [List.cons_append, List.nil_append, parseNatAux,
        charToDigit?_digitChar n h10, List.length_singleton]
      norm_num [Nat.mul_comm]
    · rw [if_neg h10]
      have hdiv : n / 10 < 10 ^ f := by
        rw [Nat.div_lt_iff_lt_mul (by norm_num)]
        calc n < 10 ^ (f + 1) := hn
        _ = 10 ^ f * 10 := pow_succ 10 f
      rw [List.append_assoc, List.singleton_append,
        ih (n / 10) hdiv acc (Nat.digitChar (n % 10) :: rest)]
      simp only [List.cons_append, List.nil_append, parseNatAux,
        charToDigit?_digitChar (n % 10) (Nat.mod_lt n (by norm_num))]
      congr 1
      rw [List.length_append, List.length_singleton]
      have hstep : 10 * (acc * 10 ^ (natToCharsAux f (n / 10)).length + n / 10) + n % 10
          = acc * (10 ^ (natToCharsAux f (n / 10)).length * 10) + (10 * (n / 10) + n % 10) := by
        ring
      rw [hstep, Nat.div_add_mod, ← pow_succ]

lemma parseNatChars_natToChars (n : Nat) : parseNatChars (natToChars n) = some n := by
  have hbound : n < 10 ^ (n + 1) :=
    lt_of_lt_of_le (Nat.lt_pow_self (by norm_num) n)
      (Nat.pow_le_pow_right (by norm_num) (Nat.le_succ n))
  have hne : natToChars n ≠ [] := natToChars_ne_nil n
  obtain ⟨c, cs, hcs⟩ := List.exists_cons_of_ne_nil hne
  have h1 : parseNatChars (natToChars n) = parseNatAux (natToChars n) 0 := by
    rw [hcs]; rfl
  have key := parseNatAux_append_toChars (n + 1) n hbound 0 []
  rw [List.append_nil] at key
  rw [h1]
  show parseNatAux (natToCharsAux (n + 1) n) 0 = some n
  rw [key]
  simp [parseNatAux]

lemma parseIntChars_cons (c : Char) (cs : List Char) :
    parseIntChars (c :: cs)
      = if c = '-' then (parseNatChars cs).map (fun m => -(m : Int))
        else (parseNatChars (c :: cs)).map (fun m => (m : Int)) := rfl

lemma parseIntChars_intToChars (n : Int) : parseIntChars (intToChars n) = some n := by
  by_cases hneg : n < 0
  · rw [intToChars, if_pos hneg]
    calc parseIntChars ('-' :: natToChars n.natAbs)
        = (parseNatChars (natToChars n.natAbs)).map (fun m => -(m : Int)) := by
          rw [parseIntChars_cons, if_pos rfl]
      _ = (some n.natAbs).map (fun m => -(m : Int)) := by rw [parseNatChars_natToChars]
      _ = some (-(n.natAbs : Int)) := rfl
      _ = some n := congrArg some (by omega)
  · rw [intToChars, if_neg hneg]
    have hne : natToChars n.natAbs ≠ [] := natToChars_ne_nil n.natAbs
    obtain ⟨c, cs, hcs⟩ := List.exists_cons_of_ne_nil hne
    have hc : c ∈ natToChars n.natAbs := by
      rw [hcs]; exact List.mem_cons_self _ _
    obtain ⟨d, hd10, hdc⟩ := mem_natToCharsAux _ _ _ hc
    have hnd : c ≠ '-' := by rw [hdc]; exact digitChar_ne_dash d hd10
    calc parseIntChars (natToChars n.natAbs)
        = parseIntChars (c :: cs) := by rw [hcs]
      _ = (parseNatChars (c :: cs)).map (fun m => (m : Int)) := by
          rw [parseIntChars_cons, if_neg hnd]
      _ = (some n.natAbs).map (fun m => (m : Int)) := by
          rw [← hcs, parseNatChars_natToChars]
      _ = some ((n.natAbs : Int)) := rfl
      _ = some n := congrArg some (by omega)

/-! ## Lemmas: frame-level round trip -/


lemma intToChars_ne_nil (n : Int) : intToChars n ≠ [] := by
  rw [intToChars]
  split
  · simp
  · exact natToChars_ne_nil _

lemma unnamedFixFrom_eq_self :
    ∀ (l : List String) (i : Nat), (∀ c ∈ l, c ≠ "") → unnamedFixFrom i l = l := by
  intro l
  induction l with
  | nil => intro i _; rfl
  | cons a t ih =>
    intro i h
    rw [unnamedFixFrom, if_neg (h a (List.mem_cons_self a t)),
      ih (i + 1) (fun c hc => h c (List.mem_cons_of_mem a hc))]

lemma mangleDupFrom_eq_self :
    ∀ (l seen : List String), l.Nodup → (∀ h ∈ l, seen.count h = 0) →
      mangleDupFrom seen l = l := by
  intro l
  induction l with
  | nil => intro seen _ _; rfl
  | cons a t ih =>
    intro seen hnd hcnt
    rw [mangleDupFrom, if_pos (hcnt a (List.mem_cons_self a t))]
    congr 1
    refine ih (seen ++ [a]) (List.Nodup.of_cons hnd) ?_
    intro h hht
    have hha : h ≠ a := by
      intro he
      exact (List.nodup_cons.mp hnd).1 (he ▸ hht)
    rw [List.count_append]
    have h1 : seen.count h = 0 := hcnt h (List.mem_cons_of_mem a hht)
    have h2 : [a].count h = 0 := List.count_eq_zero.mpr (by simp [hha])
    omega

lemma mangleDup_eq_self (l : List String) (hnd : l.Nodup) : mangleDup l = l :=
  mangleDupFrom_eq_self l [] hnd (fun h _ => List.count_nil h)

lemma naTokens_no_int : ∀ s ∈ naTokens, parseIntChars s.data = none := by decide

lemma intStr_not_na (n : Int) : isNA (String.mk (intToChars n)) = false := by
  rw [isNA, decide_eq_false_iff_not]
  intro hmem
  have h5 := naTokens_no_int _ hmem
  rw [show (String.mk (intToChars n)).data = intToChars n from rfl,
    parseIntChars_intToChars] at h5
  cases h5

lemma intStr_isIntField (n : Int) : isIntField (String.mk (intToChars n)) = true := by
  rw [isIntField, show (String.mk (intToChars n)).data = intToChars n from rfl,
    parseIntChars_intToChars]
  rfl

/-- The heart of the round trip, per column: for safe, type-homogeneous
cells, parsing each rendered field at the dtype inferred for the whole
rendered column restores the cell. -/
lemma parse_col_roundtrip (cells : List Cell)
    (hsafe : ∀ c ∈ cells, safeCell c) (hhom : homogeneousCol cells = true) :
    ∀ c ∈ cells,
      parseFieldTyped (inferColType (cells.map cellToField)) (cellToField c) = c := by
  intro c hc
  have hmemf : cellToField c ∈ cells.map cellToField := List.mem_map_of_mem _ hc
  have hnullcase : ∀ t, parseFieldTyped t (cellToField Cell.null) = Cell.null := by
    intro t
    have h0 : isNA "" = true := by decide
    simp [parseFieldTyped, cellToField, h0]
  rw [homogeneousCol] at hhom
  rcases Bool.or_eq_true_iff.mp hhom with hhom2 | hstr
  rcases Bool.or_eq_true_iff.mp hhom2 with hnum | hbool
  · -- integer column
    have hint : ((cells.map cellToField).filter (fun s => !isNA s)).all isIntField
        = true := by
      rw [List.all_eq_true]
      intro f hf
      obtain ⟨hfmem, hfna⟩ := List.mem_filter.mp hf
      obtain ⟨c0, hc0, rfl⟩ := List.mem_map.mp hfmem
      have h0 := List.all_eq_true.mp hnum c0 hc0
      cases c0 with
      | num m => exact intStr_isIntField m
      | null => exact absurd hfna (by decide)
      | str s => exact absurd h0 (by simp [isNumOrNull])
      | bool b => exact absurd h0 (by simp [isNumOrNull])
    have ht : inferColType (cells.map cellToField) = ColType.intCol := by
      rw [inferColType]
      simp only [hint, if_true]
    rw [ht]
    cases c with
    | num n =>
      simp only [cellToField, parseFieldTyped, intStr_not_na n, Bool.false_eq_true,
        if_false]
      rw [parseIntChars_intToChars]
    | null => exact hnullcase _
    | str s => exact absurd (List.all_eq_true.mp hnum _ hc) (by simp [isNumOrNull])
    | bool b => exact absurd (List.all_eq_true.mp hnum _ hc) (by simp [isNumOrNull])
  · -- boolean column
    cases c with
    | bool b =>
      have hpres : cellToField (Cell.bool b)
          ∈ (cells.map cellToField).filter (fun s => !isNA s) := by
        rw [List.mem_filter]
        exact ⟨hmemf, by cases b <;> decide⟩
      have hintfail : ((cells.map cellToField).filter (fun s => !isNA s)).all isIntField
          = false := by
        cases hx : ((cells.map cellToField).filter (fun s => !isNA s)).all isIntField
        · rfl
        · exact absurd (List.all_eq_true.mp hx _ hpres) (by cases b <;> decide)
      have hboolok : ((cells.map cellToField).filter (fun s => !isNA s)).all isBoolField
          = true := by
        rw [List.all_eq_true]
        intro f hf
        obtain ⟨hfmem, hfna⟩ := List.mem_filter.mp hf
        obtain ⟨c0, hc0, rfl⟩ := List.mem_map.mp hfmem
        have h0 := List.all_eq_true.mp hbool c0 hc0
        cases c0 with
        | bool b0 => cases b0 <;> decide
        | null => exact absurd hfna (by decide)
        | num m => exact absurd h0 (by simp [isBoolOrNull])
        | str s => exact absurd h0 (by simp [isBoolOrNull])
      have ht : inferColType (cells.map cellToField) = ColType.boolCol := by
        rw [inferColType]
        simp only [hintfail, Bool.false_eq_true, if_false, hboolok, if_true]
      rw [ht]
      cases b <;> decide
    | null => exact hnullcase _
    | num n => exact absurd (List.all_eq_true.mp hbool _ hc) (by simp [isBoolOrNull])
    | str s => exact absurd (List.all_eq_true.mp hbool _ hc) (by simp [isBoolOrNull])
  · -- string column
    cases c with
    | str s =>
      obtain ⟨hs1, hs2, hs3, hs4, hs5⟩ := hsafe _ hc
      have hpres : cellToField (Cell.str s)
          ∈ (cells.map cellToField).filter (fun s => !isNA s) := by
        rw [List.mem_filter]
        exact ⟨hmemf, by simp [cellToField, hs2]⟩
      have hintfail : ((cells.map cellToField).filter (fun s => !isNA s)).all isIntField
          = false := by
        cases hx : ((cells.map cellToField).filter (fun s => !isNA s)).all isIntField
        · rfl
        · have h0 := List.all_eq_true.mp hx _ hpres
          rw [show cellToField (Cell.str s) = s from rfl, isIntField, hs4] at h0
          cases h0
      have hboolfail : ((cells.map cellToField).filter (fun s => !isNA s)).all isBoolField
          = false := by
        cases hx : ((cells.map cellToField).filter (fun s => !isNA s)).all isBoolField
        · rfl
        · have h0 := List.all_eq_true.mp hx _ hpres
          rw [show cellToField (Cell.str s) = s from rfl, hs3] at h0
          cases h0
      have ht : inferColType (cells.map cellToField) = ColType.strCol := by
        rw [inferColType]
        simp only [hintfail, Bool.false_eq_true, if_false, hboolfail]
      rw [ht]
      simp only [cellToField, parseFieldTyped, hs2, Bool.false_eq_true, if_false]
    | null => exact hnullcase _
    | num n => exact absurd (List.all_eq_true.mp hstr _ hc) (by simp [isStrOrNull])
    | bool b => exact absurd (List.all_eq_true.mp hstr _ hc) (by simp [isStrOrNull])

lemma read_csv_to_csv_noindex (df : DataFrame) (hwf : df.WF)
    (hcols : ∀ c ∈ df.cols, c ≠ "") (hnodup : df.cols.Nodup) (hne : df.cols ≠ [])
    (hsafe : ∀ r ∈ df.rows, ∀ cl ∈ r, safeCell cl)
    (hhom : ∀ j < df.cols.length, homogeneousCol (colCells df j) = true) :
    read_csv (to_csv df false) none = .ok df := by
  show read_csv (df.cols :: df.rows.map (fun r => r.map cellToField)) none = .ok df
  have hie : df.cols.isEmpty = false := by
    simp [List.isEmpty_iff, hne]
  have hfix : unnamedFix df.cols = df.cols := unnamedFixFrom_eq_self df.cols 0 hcols
  have hman : mangleDup df.cols = df.cols := mangleDup_eq_self df.cols hnodup
  have hlen : ∀ r ∈ df.rows.map (fun r => r.map cellToField),
      r.length = df.cols.length := by
    intro r hr
    obtain ⟨r0, hr0, rfl⟩ := List.mem_map.mp hr
    rw [List.length_map]
    exact hwf r0 hr0
  have hany : (df.rows.map (fun r => r.map cellToField)).any
      (fun r => df.cols.length < r.length) = false := by
    rw [List.any_eq_false]
    intro r hr
    simp [hlen r hr]
  have hpad : (df.rows.map (fun r => r.map cellToField)).map
      (fun r => r ++ List.replicate (df.cols.length - r.length) "")
      = df.rows.map (fun r => r.map cellToField) := by
    calc (df.rows.map (fun r => r.map cellToField)).map
          (fun r => r ++ List.replicate (df.cols.length - r.length) "")
        = (df.rows.map (fun r => r.map cellToField)).map id :=
          List.map_congr_left (fun r hr => by
            rw [hlen r hr, Nat.sub_self, List.replicate_zero, List.append_nil, id])
      _ = df.rows.map (fun r => r.map cellToField) := List.map_id _
  have hcolfields : ∀ j ∈ List.range df.cols.length,
      (df.rows.map (fun r => r.map cellToField)).map (fun r => r.getD j "")
        = (colCells df j).map cellToField := by
    intro j hj
    have hjlt : j < df.cols.length := List.mem_range.mp hj
    rw [colCells, List.map_map, List.map_map]
    apply List.map_congr_left
    intro r0 hr0
    have hjr : j < r0.length := by rw [hwf r0 hr0]; exact hjlt
    show (r0.map cellToField).getD j "" = cellToField (r0.getD j Cell.null)
    rw [List.getD_eq_getElem?_getD, List.getElem?_map,
      List.getElem?_eq_getElem hjr, List.getD_eq_getElem?_getD,
      List.getElem?_eq_getElem hjr]
    rfl
  have hct : (List.range df.cols.length).map
      (fun j => inferColType
        ((df.rows.map (fun r => r.map cellToField)).map (fun r => r.getD j "")))
      = (List.range df.cols.length).map
        (fun j => inferColType ((colCells df j).map cellToField)) :=
    List.map_congr_left (fun j hj => by rw [hcolfields j hj])
  have hcolsafe : ∀ j < df.cols.length, ∀ c ∈ colCells df j, safeCell c := by
    intro j hj c hcmem
    obtain ⟨r1, hr1, rfl⟩ := List.mem_map.mp hcmem
    have hjr : j < r1.length := by rw [hwf r1 hr1]; exact hj
    rw [List.getD_eq_getElem?_getD, List.getElem?_eq_getElem hjr]
    exact hsafe r1 hr1 _ (List.getElem_mem hjr)
  have hrows : (df.rows.map (fun r => r.map cellToField)).map
      (fun r => (r.zip ((List.range df.cols.length).map
          (fun j => inferColType ((colCells df j).map cellToField)))).map
        (fun ft => parseFieldTyped ft.2 ft.1))
      = df.rows := by
    rw [List.map_map]
    calc df.rows.map (fun r0 => ((r0.map cellToField).zip
            ((List.range df.cols.length).map
              (fun j => inferColType ((colCells df j).map cellToField)))).map
          (fun ft => parseFieldTyped ft.2 ft.1))
        = df.rows.map id := ?_
      _ = df.rows := List.map_id _
    apply List.map_congr_left
    intro r0 hr0
    have hr0len : r0.length = df.cols.length := hwf r0 hr0
    apply List.ext_getElem
    · simp [List.length_zip, hr0len]
    · intro i h1 h2
      have hi : i < df.cols.length := by
        rw [← hr0len]
        simpa using h2
      have hir : i < r0.length := by rw [hr0len]; exact hi
      rw [List.getElem_map, List.getElem_zip, List.getElem_map, List.getElem_map,
        List.getElem_range]
      show parseFieldTyped (inferColType ((colCells df i).map cellToField))
        (cellToField r0[i]) = r0[i]
      have hmem : r0[i] ∈ colCells df i := by
        rw [colCells]
        have : r0.getD i Cell.null = r0[i] := by
          rw [List.getD_eq_getElem?_getD, List.getElem?_eq_getElem hir]
          rfl
        rw [← this]
        exact List.mem_map_of_mem _ hr0
      exact parse_col_roundtrip (colCells df i) (hcolsafe i hi)
        (hhom i hi) r0[i] hmem
  simp only [read_csv, hie, Bool.false_eq_true, if_false, hfix, hman, hany, hpad,
    hct, hrows]

lemma load_csv_to_csv_noindex (df : DataFrame) (hwf : df.WF)
    (hcols : ∀ c ∈ df.cols, c ≠ "") (hnodup : df.cols.Nodup) (hne : df.cols ≠ [])
    (hsafe : ∀ r ∈ df.rows, ∀ cl ∈ r, safeCell cl)
    (hhom : ∀ j < df.cols.length, homogeneousCol (colCells df j) = true) :
    load_csv (some (to_csv df false)) none = (df, none) := by
  simp only [load_csv]
  rw [read_csv_to_csv_noindex df hwf hcols hnodup hne hsafe hhom]

/-! ## Lemmas: the update loop -/


lemma applyUpdates_foldl_fst :
    ∀ (us : List (String × UpdateVal)) (cols : List String)
      (rows : List Row) (mask : List Bool) (w : List String),
      (us.foldl
        (fun acc cu =>
          if cu.1 ∈ cols then (applyUpdateCol cols acc.1 mask cu.1 cu.2, acc.2)
          else (acc.1, acc.2 ++ [cu.1]))
        (rows, w)).1
        = applyUpdatesRows cols rows mask us := by
  intro us
  induction us with
  | nil => intro cols rows mask w; rfl
  | cons cu t ih =>
    intro cols rows mask w
    rw [applyUpdatesRows, List.foldl_cons, List.foldl_cons]
    by_cases h : cu.1 ∈ cols
    · rw [if_pos h, if_pos h]
      exact ih cols _ mask w
    · rw [if_neg h, if_neg h]
      exact ih cols rows mask _

lemma applyUpdates_fst (cols : List String) (rows : List Row) (mask : List Bool)
    (us : List (String × UpdateVal)) :
    (applyUpdates cols rows mask us).1 = applyUpdatesRows cols rows mask us := by
  rw [applyUpdates]
  exact applyUpdates_foldl_fst us cols rows mask []

lemma applyUpdates_foldl_snd :
    ∀ (us : List (String × UpdateVal)) (cols : List String)
      (rows : List Row) (mask : List Bool) (w : List String),
      (us.foldl
        (fun acc cu =>
          if cu.1 ∈ cols then (applyUpdateCol cols acc.1 mask cu.1 cu.2, acc.2)
          else (acc.1, acc.2 ++ [cu.1]))
        (rows, w)).2
        = w ++ (us.filter (fun cu => !decide (cu.1 ∈ cols))).map (fun cu => cu.1) := by
  intro us
  induction us with
  | nil => intro cols rows mask w; simp
  | cons cu t ih =>
    intro cols rows mask w
    rw [List.foldl_cons]
    by_cases h : cu.1 ∈ cols
    · rw [if_pos h]
      rw [ih cols _ mask w]
      simp [List.filter_cons, h]
    · rw [if_neg h]
      rw [ih cols rows mask (w ++ [cu.1])]
      simp [List.filter_cons, h]

lemma applyUpdates_snd (cols : List String) (rows : List Row) (mask : List Bool)
    (us : List (String × UpdateVal)) :
    (applyUpdates cols rows mask us).2
      = (us.filter (fun cu => !decide (cu.1 ∈ cols))).map (fun cu => cu.1) := by
  rw [applyUpdates]
  rw [applyUpdates_foldl_snd us cols rows mask []]
  rfl

lemma applyUpdatesRows_append (cols : List String) (rows : List Row)
    (mask : List Bool) (us1 us2 : List (String × UpdateVal)) :
    applyUpdatesRows cols rows mask (us1 ++ us2)
      = applyUpdatesRows cols (applyUpdatesRows cols rows mask us1) mask us2 := by
  rw [applyUpdatesRows, applyUpdatesRows, applyUpdatesRows, List.foldl_append]

lemma applyUpdatesRows_filter :
    ∀ (us : List (String × UpdateVal)) (cols : List String)
      (rows : List Row) (mask : List Bool),
      applyUpdatesRows cols rows mask us
        = applyUpdatesRows cols rows mask (us.filter (fun cu => decide (cu.1 ∈ cols))) := by
  intro us
  induction us with
  | nil => intro cols rows mask; rfl
  | cons cu t ih =>
    intro cols rows mask
    by_cases h : cu.1 ∈ cols
    · rw [List.filter_cons_of_pos (by simpa using h)]
      rw [applyUpdatesRows, List.foldl_cons, if_pos h,
        applyUpdatesRows, List.foldl_cons, if_pos h]
      exact ih cols _ mask
    · rw [List.filter_cons_of_neg (by simpa using h)]
      rw [applyUpdatesRows, List.foldl_cons, if_neg h]
      exact ih cols rows mask

/-! ## Claim theorems -/

/-- C1 (evidence of the code bug): the claim says a key of `row_data` outside
the current schema extends the schema, back-fills prior rows with null, and
keeps the supplied value.  The code instead reindexes the new row to the
existing columns, silently dropping the new key: adding
a row with keys name and city to a one-column table `[name]` leaves the schema at
`[name]` and loses the `city` value entirely. -/
theorem add_row_drops_new_columns :
    add_row ⟨["name"], [[Cell.str "a"]]⟩ [("name", Cell.str "c"), ("city", Cell.str "X")]
      = ⟨["name"], [[Cell.str "a"], [Cell.str "c"]]⟩ := by decide

/-- C2 (counterexample): updating A from B and B from A on the row
(A, B) = (1, 2).  The code updates column A first (A := 2) and then
evaluates the function for B on the already-updated row (B := 2), while the
snapshot semantics claimed by the spec — embodied by
`update_data_specSnapshot` — yields (2, 1).  The two results differ, so
updates are not computed from a pre-update snapshot. -/
theorem update_data_not_snapshot :
    (update_data ⟨["A", "B"], [[Cell.num 1, Cell.num 2]]⟩ (fun _ => true)
        [("A", UpdateVal.func (fun r => r "B")),
         ("B", UpdateVal.func (fun r => r "A"))]).state
      = ⟨["A", "B"], [[Cell.num 2, Cell.num 2]]⟩ ∧
    update_data_specSnapshot ⟨["A", "B"], [[Cell.num 1, Cell.num 2]]⟩ (fun _ => true)
        [("A", UpdateVal.func (fun r => r "B")),
         ("B", UpdateVal.func (fun r => r "A"))]
      = ⟨["A", "B"], [[Cell.num 2, Cell.num 1]]⟩ ∧
    (⟨["A", "B"], [[Cell.num 2, Cell.num 2]]⟩ : DataFrame)
      ≠ ⟨["A", "B"], [[Cell.num 2, Cell.num 1]]⟩ :=
  ⟨by decide, by decide, by decide⟩

/-- C2 (amended): `update_data` applies the updated columns sequentially in
mapping order — a call on `us1 ++ us2` behaves as applying `us1` and then
applying `us2` to the already-updated rows — while the row selection mask
is computed once from the pre-update rows and reused for every column. -/
theorem update_data_sequential (df : DataFrame) (cond : Pred)
    (us1 us2 : List (String × UpdateVal))
    (hne : df.isEmptyDF = false)
    (hmatch : (df.rows.map (fun r => cond (rowView df.cols r))).all (fun b => !b) = false) :
    (update_data df cond (us1 ++ us2)).state
      = ⟨df.cols,
          applyUpdatesRows df.cols
            (applyUpdatesRows df.cols df.rows
              (df.rows.map (fun r => cond (rowView df.cols r))) us1)
            (df.rows.map (fun r => cond (rowView df.cols r))) us2⟩ := by
  simp only [update_data, hne, Bool.false_eq_true, if_false, hmatch]
  simp only [applyUpdates_fst, applyUpdatesRows_append]

/-- C2 witness: `update_data_sequential` at a concrete one-row table where
column A is set to 5 and then to 7 in the same call; the second assignment
sees the first, leaving 7. -/
theorem update_data_sequential_witness :
    ((⟨["A"], [[Cell.num 1]]⟩ : DataFrame).isEmptyDF = false) ∧
    (((⟨["A"], [[Cell.num 1]]⟩ : DataFrame).rows.map
        (fun r => (fun _ => true) (rowView (⟨["A"], [[Cell.num 1]]⟩ : DataFrame).cols r))).all
        (fun b => !b) = false) ∧
    (update_data ⟨["A"], [[Cell.num 1]]⟩ (fun _ => true)
        ([("A", UpdateVal.static (Cell.num 5))] ++ [("A", UpdateVal.static (Cell.num 7))])).state
      = ⟨["A"], [[Cell.num 7]]⟩ :=
  ⟨by decide, by decide, by
    have h := update_data_sequential ⟨["A"], [[Cell.num 1]]⟩ (fun _ => true)
      [("A", UpdateVal.static (Cell.num 5))] [("A", UpdateVal.static (Cell.num 7))]
      (by decide) (by decide)
    exact h.trans (by decide)⟩

/-- C3 (counterexample): on a two-row table with one matching row,
`delete_rows` does not return the deleted count to the caller — the Python
function returns `None` — although the count (1) is computed and printed
and the matching row is removed. -/
theorem delete_rows_returns_no_count :
    (delete_rows ⟨["A"], [[Cell.num 1], [Cell.num 2]]⟩
        (fun r => r "A" = Cell.num 1)).ret ≠ some 1 ∧
    (delete_rows ⟨["A"], [[Cell.num 1], [Cell.num 2]]⟩
        (fun r => r "A" = Cell.num 1)).printedDeleted = some 1 ∧
    (delete_rows ⟨["A"], [[Cell.num 1], [Cell.num 2]]⟩
        (fun r => r "A" = Cell.num 1)).state = ⟨["A"], [[Cell.num 2]]⟩ :=
  ⟨by decide, by decide, by decide⟩

/-- C3 (amended): on a non-empty table `delete_rows` keeps exactly the rows
not satisfying the predicate, in their original relative order with no
gaps; the count it reports (by printing, not by returning — the function
returns `None`) is exactly the number of rows satisfying the predicate. -/
theorem delete_rows_count_and_order (df : DataFrame) (cond : Pred)
    (hc : df.cols ≠ []) (hr : df.rows ≠ []) :
    (delete_rows df cond).state
      = ⟨df.cols, df.rows.filter (fun r => !(cond (rowView df.cols r)))⟩ ∧
    (delete_rows df cond).printedDeleted
      = some (df.rows.countP (fun r => cond (rowView df.cols r))) ∧
    (delete_rows df cond).ret = none := by
  have hemp : df.isEmptyDF = false := by
    simp [DataFrame.isEmptyDF, List.isEmpty_iff, hc, hr]
  rw [delete_rows]
  simp only [hemp, Bool.false_eq_true, if_false]
  refine ⟨trivial, ?_, trivial⟩
  congr 1
  have h2 : df.rows.length
      = (df.rows.filter (fun r => cond (rowView df.cols r))).length
        + (df.rows.filter (fun r => !(cond (rowView df.cols r)))).length :=
    List.length_eq_length_filter_add _
  rw [List.countP_eq_length_filter]
  omega

/-- C3 witness: `delete_rows_count_and_order` at a concrete two-row table
with one matching row. -/
theorem delete_rows_count_and_order_witness :
    ((⟨["A"], [[Cell.num 1], [Cell.num 2]]⟩ : DataFrame).cols ≠ []) ∧
    ((⟨["A"], [[Cell.num 1], [Cell.num 2]]⟩ : DataFrame).rows ≠ []) ∧
    (delete_rows ⟨["A"], [[Cell.num 1], [Cell.num 2]]⟩ (fun r => r "A" = Cell.num 1)).state
      = ⟨["A"], [[Cell.num 2]]⟩ ∧
    (delete_rows ⟨["A"], [[Cell.num 1], [Cell.num 2]]⟩
        (fun r => r "A" = Cell.num 1)).printedDeleted = some 1 :=
  ⟨by decide, by decide, by
    have h := delete_rows_count_and_order ⟨["A"], [[Cell.num 1], [Cell.num 2]]⟩
      (fun r => r "A" = Cell.num 1) (by decide) (by decide)
    exact h.1.trans (by decide), by
    have h := delete_rows_count_and_order ⟨["A"], [[Cell.num 1], [Cell.num 2]]⟩
      (fun r => r "A" = Cell.num 1) (by decide) (by decide)
    exact h.2.1.trans (by decide)⟩

/-- C4 (counterexample): saving with the default options writes the integer
index as an unnamed leading column, so loading the saved table back yields
a schema with an extra first column `Unnamed: 0` — not a table identical to
the original. -/
theorem save_load_default_gains_index_column :
    (load_csv (some (to_csv ⟨["name"], [[Cell.str "a"]]⟩ true)) none).1
      ≠ ⟨["name"], [[Cell.str "a"]]⟩ ∧
    (load_csv (some (to_csv ⟨["name"], [[Cell.str "a"]]⟩ true)) none).1
      = ⟨["Unnamed: 0", "name"], [[Cell.num 0, Cell.str "a"]]⟩ :=
  ⟨by decide, by decide⟩

/-- C4 (amended): saving with `index=False` to a destination and then
constructing a manager from that destination reproduces the table exactly
— same schema in the same order and same row values — for well-formed
tables with non-empty, pairwise-distinct column names, type-homogeneous
columns, and string cells that are non-empty and not NA-sentinel, boolean
or numeric-looking text.  (Fields of the excluded forms are read back as
nulls, booleans or numbers: the null forms are the normalization the claim
allows, and the rest genuinely do not round-trip, so the hypotheses rule
them out.) -/
theorem save_then_load_roundtrip (m : CSVManager) (dest : String)
    (env : String → List (List String) → WriteOutcome)
    (hdest : dest ≠ "") (hok : env dest (to_csv m.data false) = .ok)
    (hwf : m.data.WF) (hcols : ∀ c ∈ m.data.cols, c ≠ "")
    (hnodup : m.data.cols.Nodup) (hne : m.data.cols ≠ [])
    (hsafe : ∀ r ∈ m.data.rows, ∀ cl ∈ r, safeCell cl)
    (hhom : ∀ j < m.data.cols.length, homogeneousCol (colCells m.data j) = true) :
    (save_changes m (some dest) false env).1.destContents = to_csv m.data false ∧
    initManager dest (some (to_csv m.data false)) none = ⟨dest, m.data⟩ := by
  constructor
  · simp only [save_changes, if_neg hdest]
    rw [hok]
  · rw [initManager, load_csv_to_csv_noindex m.data hwf hcols hnodup hne hsafe hhom]

/-- C4 witness: `save_then_load_roundtrip` for a concrete two-row table with
a string column and an integer column containing a null. -/
theorem save_then_load_roundtrip_witness :
    ("out.csv" ≠ "") ∧
    ((fun _ _ => WriteOutcome.ok) "out.csv"
        (to_csv ⟨["name", "age"], [[Cell.str "a", Cell.num 30], [Cell.str "b", Cell.null]]⟩
          false)
      = WriteOutcome.ok) ∧
    ((⟨"t.csv", ⟨["name", "age"], [[Cell.str "a", Cell.num 30], [Cell.str "b", Cell.null]]⟩⟩
        : CSVManager).data.WF) ∧
    ((⟨["name", "age"], [[Cell.str "a", Cell.num 30], [Cell.str "b", Cell.null]]⟩
        : DataFrame).cols.Nodup) ∧
    (∀ j < (⟨["name", "age"], [[Cell.str "a", Cell.num 30], [Cell.str "b", Cell.null]]⟩
        : DataFrame).cols.length,
      homogeneousCol (colCells
        ⟨["name", "age"], [[Cell.str "a", Cell.num 30], [Cell.str "b", Cell.null]]⟩ j)
        = true) ∧
    (save_changes
        ⟨"t.csv", ⟨["name", "age"], [[Cell.str "a", Cell.num 30], [Cell.str "b", Cell.null]]⟩⟩
        (some "out.csv") false (fun _ _ => WriteOutcome.ok)).1.destContents
      = to_csv ⟨["name", "age"],
          [[Cell.str "a", Cell.num 30], [Cell.str "b", Cell.null]]⟩ false ∧
    initManager "out.csv"
        (some (to_csv ⟨["name", "age"],
          [[Cell.str "a", Cell.num 30], [Cell.str "b", Cell.null]]⟩ false))
        none
      = ⟨"out.csv", ⟨["name", "age"],
          [[Cell.str "a", Cell.num 30], [Cell.str "b", Cell.null]]⟩⟩ := by
  have h := save_then_load_roundtrip
    ⟨"t.csv", ⟨["name", "age"], [[Cell.str "a", Cell.num 30], [Cell.str "b", Cell.null]]⟩⟩
    "out.csv" (fun _ _ => WriteOutcome.ok) (by decide) rfl (by decide) (by decide)
    (by decide) (by decide) (by decide) (by decide)
  exact ⟨by decide, rfl, by decide, by decide, by decide, h.1, h.2⟩

/-- C5: `query` is pure — the manager state after a query equals the state
before it (row count, schema and every cell unchanged), and running the
same query again on the unmutated manager returns an equal result.  The
result is built from a copy of the frame (`DataFrame.copy` in `query`), so
it is a value independent of the storage of the table. -/
theorem query_pure_and_deterministic (m : CSVManager) (cond : Option Pred)
    (columns : Option (List String)) :
    (m.runQuery cond columns).2 = m ∧
    ((m.runQuery cond columns).2.runQuery cond columns).1 = (m.runQuery cond columns).1 :=
  ⟨rfl, rfl⟩

/-- C6: loading never propagates a failure: a missing source yields the
empty table with a warning, an empty source yields the empty table with a
warning, and any parse failure yields the empty table with a warning —
in every case the caller receives a table, never an exception. -/
theorem load_never_propagates_failure (ic : Option String) :
    load_csv none ic = (emptyDF, some LoadWarning.fileNotFound) ∧
    load_csv (some []) ic = (emptyDF, some LoadWarning.emptyFile) ∧
    ∀ content e, read_csv content ic = .error e →
      (load_csv (some content) ic).1 = emptyDF ∧
      (load_csv (some content) ic).2 ≠ none := by
  refine ⟨rfl, rfl, ?_⟩
  intro content e h
  simp only [load_csv]
  rw [h]
  cases e
  · exact ⟨rfl, by simp⟩
  · exact ⟨rfl, by simp⟩
  · exact ⟨rfl, by simp⟩

/-- C6 witness: `load_never_propagates_failure` at a concrete malformed
content (a data record longer than the header). -/
theorem load_never_propagates_failure_witness :
    read_csv [["a"], ["1", "2"]] none = .error ReadErr.tokenizeError ∧
    (load_csv (some [["a"], ["1", "2"]]) none).1 = emptyDF ∧
    (load_csv (some [["a"], ["1", "2"]]) none).2 ≠ none :=
  ⟨rfl,
    ((load_never_propagates_failure none).2.2 [["a"], ["1", "2"]]
      ReadErr.tokenizeError rfl).1,
    ((load_never_propagates_failure none).2.2 [["a"], ["1", "2"]]
      ReadErr.tokenizeError rfl).2⟩

/-- C7 (counterexample): when no row matches the predicate, `update_data`
returns before the column loop, so an update key outside the schema
produces no diagnostic at all — the unknown column Z is dropped silently,
against the claim that every unknown key is skipped *with a diagnostic*.
(The schema is still unchanged.) -/
theorem update_data_no_match_no_diagnostic :
    (update_data ⟨["A"], [[Cell.num 1]]⟩ (fun _ => false)
        [("Z", UpdateVal.static Cell.null)]).skippedCols = [] ∧
    ([] : List String) ≠ ["Z"] ∧
    (update_data ⟨["A"], [[Cell.num 1]]⟩ (fun _ => false)
        [("Z", UpdateVal.static Cell.null)]).state.cols = ["A"] :=
  ⟨by decide, by decide, by decide⟩

/-- C7 (amended): `update_data` never adds a column: the schema after the call equals
the schema before it, the result equals the result of the same call with
the unknown columns filtered out (so the valid columns are still applied),
and — whenever the update pass actually runs — each skipped unknown column
is reported in the printed diagnostics. -/
theorem update_data_never_extends_schema (df : DataFrame) (cond : Pred)
    (us : List (String × UpdateVal)) :
    (update_data df cond us).state.cols = df.cols ∧
    (update_data df cond us).state
      = (update_data df cond (us.filter (fun cu => decide (cu.1 ∈ df.cols)))).state ∧
    (df.isEmptyDF = false →
      (df.rows.map (fun r => cond (rowView df.cols r))).all (fun b => !b) = false →
      (update_data df cond us).skippedCols
        = (us.filter (fun cu => !decide (cu.1 ∈ df.cols))).map (fun cu => cu.1)) := by
  by_cases hemp : df.isEmptyDF = true
  · simp only [update_data, hemp, if_true]
    exact ⟨trivial, trivial, fun hne _ => absurd hne (by decide)⟩
  · have hemp' : df.isEmptyDF = false := by simpa using hemp
    by_cases hall : (df.rows.map (fun r => cond (rowView df.cols r))).all (fun b => !b) = true
    · simp only [update_data, hemp', Bool.false_eq_true, if_false, hall, if_true]
      exact ⟨trivial, trivial, fun _ hmatch => absurd hmatch (by decide)⟩
    · have hall' : (df.rows.map (fun r => cond (rowView df.cols r))).all (fun b => !b)
          = false := by simpa using hall
      simp only [update_data, hemp', Bool.false_eq_true, if_false, hall']
      refine ⟨trivial, ?_, fun _ _ => ?_⟩
      · simp only [applyUpdates_fst]
        rw [applyUpdatesRows_filter]
      · simp only [applyUpdates_snd]

/-- C7 witness: `update_data_never_extends_schema` at a concrete table where
the update mapping names the known column A and the unknown column Z; Z is
skipped and reported. -/
theorem update_data_never_extends_schema_witness :
    ((⟨["A"], [[Cell.num 1]]⟩ : DataFrame).isEmptyDF = false) ∧
    (((⟨["A"], [[Cell.num 1]]⟩ : DataFrame).rows.map
        (fun r => (fun _ => true) (rowView (⟨["A"], [[Cell.num 1]]⟩ : DataFrame).cols r))).all
        (fun b => !b) = false) ∧
    (update_data ⟨["A"], [[Cell.num 1]]⟩ (fun _ => true)
        [("A", UpdateVal.static Cell.null), ("Z", UpdateVal.static Cell.null)]).skippedCols
      = ["Z"] :=
  ⟨by decide, by decide, by
    have h := (update_data_never_extends_schema ⟨["A"], [[Cell.num 1]]⟩ (fun _ => true)
      [("A", UpdateVal.static Cell.null), ("Z", UpdateVal.static Cell.null)]).2.2
      (by decide) (by decide)
    exact h.trans (by decide)⟩

/-- C8 (counterexample): when the write raises, `save_changes` does not
deliver an error result to the caller — the returned value is `None`, the
same as on success; the failure is only printed.  (The in-memory table is
indeed left unchanged.) -/
theorem save_failure_not_an_error_result :
    (save_changes ⟨"data.csv", ⟨["A"], [[Cell.num 1]]⟩⟩ none true
        (fun _ _ => WriteOutcome.raised "disk full" [])).1.ret = none ∧
    (save_changes ⟨"data.csv", ⟨["A"], [[Cell.num 1]]⟩⟩ none true
        (fun _ _ => WriteOutcome.raised "disk full" [])).1.printed
      = SavePrint.saveError "data.csv" "disk full" ∧
    (save_changes ⟨"data.csv", ⟨["A"], [[Cell.num 1]]⟩⟩ none true
        (fun _ _ => WriteOutcome.raised "disk full" [])).2
      = ⟨"data.csv", ⟨["A"], [[Cell.num 1]]⟩⟩ :=
  ⟨rfl, rfl, rfl⟩

/-- C8 (amended): with the destination omitted `save_changes` writes to the
original source path of the table; on a write failure — whatever partial
content the interrupted write leaves at the destination — the failure is
reported as a printed diagnostic, not as a returned error result (the
caller receives `None`), and the in-memory table is exactly as before the
call. -/
theorem save_changes_default_path_and_failure (m : CSVManager) (index : Bool)
    (env : String → List (List String) → WriteOutcome) :
    (save_changes m none index env).1.path = m.filepath ∧
    (save_changes m none index env).2 = m ∧
    ∀ e left, env m.filepath (to_csv m.data index) = .raised e left →
      (save_changes m none index env).1.printed = SavePrint.saveError m.filepath e ∧
      (save_changes m none index env).1.ret = none := by
  simp only [save_changes]
  cases henv : env m.filepath (to_csv m.data index) with
  | ok =>
    refine ⟨rfl, rfl, ?_⟩
    intro e left he
    exact WriteOutcome.noConfusion he
  | raised e0 left0 =>
    refine ⟨rfl, rfl, ?_⟩
    intro e left he
    injection he with h1 h2
    subst h1
    exact ⟨rfl, rfl⟩

/-- C8 witness: `save_changes_default_path_and_failure` with a concrete
manager and an environment that always fails the write. -/
theorem save_changes_default_path_and_failure_witness :
    ((fun _ _ => WriteOutcome.raised "no space" [["partial"]])
        (⟨"d.csv", emptyDF⟩ : CSVManager).filepath (to_csv emptyDF true)
      = WriteOutcome.raised "no space" [["partial"]]) ∧
    (save_changes ⟨"d.csv", emptyDF⟩ none true
        (fun _ _ => WriteOutcome.raised "no space" [["partial"]])).1.path = "d.csv" ∧
    (save_changes ⟨"d.csv", emptyDF⟩ none true
        (fun _ _ => WriteOutcome.raised "no space" [["partial"]])).1.printed
      = SavePrint.saveError "d.csv" "no space" ∧
    (save_changes ⟨"d.csv", emptyDF⟩ none true
        (fun _ _ => WriteOutcome.raised "no space" [["partial"]])).1.ret = none := by
  have h := save_changes_default_path_and_failure ⟨"d.csv", emptyDF⟩ true
    (fun _ _ => WriteOutcome.raised "no space" [["partial"]])
  exact ⟨rfl, h.1, (h.2.2 "no space" [["partial"]] rfl).1,
    (h.2.2 "no space" [["partial"]] rfl).2⟩

/-- C9: `save_changes` never raises and returns the same value (`None`) in
the success and the failure case — over any two write environments the
returned value is identical, so the caller cannot distinguish a successful
save from a failed one by the returned value; the table is unchanged
either way. -/
theorem save_changes_always_returns_none (m : CSVManager) (out : Option String)
    (index : Bool) (env env' : String → List (List String) → WriteOutcome) :
    (save_changes m out index env).1.ret = none ∧
    (save_changes m out index env).1.ret = (save_changes m out index env').1.ret ∧
    (save_changes m out index env).2 = m := by
  rcases out with _ | s
  · simp only [save_changes]
    cases env m.filepath (to_csv m.data index) <;>
      cases env' m.filepath (to_csv m.data index) <;> exact ⟨rfl, rfl, rfl⟩
  · simp only [save_changes]
    by_cases hs : s = ""
    · simp only [if_pos hs]
      cases env m.filepath (to_csv m.data index) <;>
        cases env' m.filepath (to_csv m.data index) <;> exact ⟨rfl, rfl, rfl⟩
    · simp only [if_neg hs]
      cases env s (to_csv m.data index) <;>
        cases env' s (to_csv m.data index) <;> exact ⟨rfl, rfl, rfl⟩

/-- C10: on a zero-row table, `query` returns the fresh empty frame,
`update_data` and `delete_rows` leave the state untouched with no printed
count, and all three results are independent of the supplied predicate —
the early `self.data.empty` returns fire before the predicate could ever
be invoked. -/
theorem empty_frame_never_runs_predicate (cols : List String) (p p' : Pred)
    (sel : Option (List String)) (us : List (String × UpdateVal)) :
    query ⟨cols, []⟩ (some p) sel = emptyDF ∧
    query ⟨cols, []⟩ (some p) sel = query ⟨cols, []⟩ (some p') sel ∧
    update_data ⟨cols, []⟩ p us = ⟨⟨cols, []⟩, [], none⟩ ∧
    update_data ⟨cols, []⟩ p us = update_data ⟨cols, []⟩ p' us ∧
    delete_rows ⟨cols, []⟩ p = ⟨⟨cols, []⟩, none, none⟩ ∧
    delete_rows ⟨cols, []⟩ p = delete_rows ⟨cols, []⟩ p' :=
  ⟨rfl, rfl, rfl, rfl, rfl, rfl⟩

end CsvMgr
